import Mathlib

/-!
Shallow embedding of `src/docs/sensor_calibration.c` / `sensor_calibration.h`
(alphabot-connect sensor-calibration module).

Modelling conventions:
* C `float` arithmetic is embedded as exact rational arithmetic (`ℚ`).
  Float comparisons `sqrtf(v) > t` (with `v ≥ 0`, which always holds for the
  exact variance `E[x²] − E[x]²`) are embedded as `v > t²`.
* `uint32_t` arithmetic is embedded as `Nat` with explicit reduction mod `2^32`
  wherever C unsigned wrap-around matters (subtraction, addition, increment).
  `uint16_t` increments reduce mod `2^16`.
* Each raw-read primitive (an external collaborator) is modelled as a read
  stream `Nat → Option _` (`none` = read failure); `read_lidar_distance`
  returns a plain value with a negative sentinel for failure, as in the header.
* The timed magnetometer while-loop is modelled by the number of iterations the
  30 s window yields (a parameter of the environment); the real loop always
  executes at least one iteration.
* Blocking delays (`delay_ms`) have no observable effect in this model.
* The global mutable `calib` record is passed explicitly: each calibrator takes
  the current record and returns `(success flag, record after the call)`,
  mirroring that the C code mutates the global in place even on some failure
  paths.
* `eeprom_write` is modelled by appending the written record to a `saves`
  trace, so "a persistence call occurred" is observable.
* The gyroscope sums accumulated by `calibrate_imu` are never used to derive
  any coefficient and are omitted.
-/

/-- Three-axis sample (the `ax, ay, az` respectively `mx, my, mz` fields of
`IMUData_t` / `MagData_t`). -/
abbrev Vec3 := ℚ × ℚ × ℚ

/-- Calibration status, `CalibrationStatus_t`. -/
inductive CalibrationStatus
  | invalid
  | valid
  | needsRecalibration
deriving DecidableEq

/-- Sequencer states, `CalibrationState_t`. -/
inductive CalibrationState
  | idle
  | imuInit
  | imuRunning
  | magInit
  | magRunning
  | odomInit
  | odomRunning
  | lidarInit
  | lidarRunning
  | cameraInit
  | cameraRunning
  | batteryInit
  | batteryRunning
  | tempInit
  | tempRunning
  | validateState
  | complete
  | errorState
deriving DecidableEq

/-- The persisted calibration record, `SensorCalibration_t`. -/
structure SensorCalibration where
  magic : Nat
  imu_bias_x : ℚ
  imu_bias_y : ℚ
  imu_bias_z : ℚ
  imu_scale_x : ℚ
  imu_scale_y : ℚ
  imu_scale_z : ℚ
  mag_offset_x : ℚ
  mag_offset_y : ℚ
  mag_offset_z : ℚ
  mag_scale_x : ℚ
  mag_scale_y : ℚ
  mag_scale_z : ℚ
  pulses_per_meter_left : ℚ
  pulses_per_meter_right : ℚ
  lidar_offset_distance : ℚ
  lidar_angle_offset : ℚ
  camera_focal_length : ℚ
  camera_principal_point_x : ℚ
  camera_principal_point_y : ℚ
  camera_distortion_k1 : ℚ
  camera_distortion_k2 : ℚ
  battery_voltage_offset : ℚ
  battery_voltage_scale : ℚ
  temp_offset : ℚ
  timestamp : Nat
  calibration_count : Nat
  status : CalibrationStatus
deriving DecidableEq

/-- Magic constant `CALIB_MAGIC` (0xCAFEBABE). -/
def CALIB_MAGIC : Nat := 0xCAFEBABE

/-- Number of IMU samples, `IMU_SAMPLES`. -/
def IMU_SAMPLES : Nat := 100

/-- Number of LiDAR samples, `LIDAR_SAMPLES`. -/
def LIDAR_SAMPLES : Nat := 50

/-- Modulus of `uint32_t` arithmetic. -/
def U32 : Nat := 2 ^ 32

/-- Wrapping `uint32_t` subtraction `a - b` (both operands reduced mod 2^32). -/
def u32sub (a b : Nat) : Nat := (a % U32 + U32 - b % U32) % U32

/-- Default record built by `init_default_calibration` (the C function zeroes
the struct and then assigns every field explicitly). -/
def init_default_calibration : SensorCalibration where
  magic := CALIB_MAGIC
  imu_bias_x := 0
  imu_bias_y := 0
  imu_bias_z := 0
  imu_scale_x := 1
  imu_scale_y := 1
  imu_scale_z := 1
  mag_offset_x := 0
  mag_offset_y := 0
  mag_offset_z := 0
  mag_scale_x := 1
  mag_scale_y := 1
  mag_scale_z := 1
  pulses_per_meter_left := 1000
  pulses_per_meter_right := 1000
  lidar_offset_distance := 0
  lidar_angle_offset := 0
  camera_focal_length := 500
  camera_principal_point_x := 320
  camera_principal_point_y := 240
  camera_distortion_k1 := 0
  camera_distortion_k2 := 0
  battery_voltage_offset := 0
  battery_voltage_scale := 1
  temp_offset := 0
  timestamp := 0
  calibration_count := 0
  status := CalibrationStatus.invalid

/-- Accumulated sums of the IMU sampling loop (`acc_*_sum`, `acc_*_sq_sum`). -/
structure ImuSums where
  sx : ℚ
  sy : ℚ
  sz : ℚ
  sqx : ℚ
  sqy : ℚ
  sqz : ℚ
deriving DecidableEq

/-- Zero-initialised IMU accumulator. -/
def imuZero : ImuSums := ⟨0, 0, 0, 0, 0, 0⟩

/-- Sampling loop of `calibrate_imu`: perform `fuel` reads starting at read
index `i`, accumulating sums; `none` if some read fails (the C loop returns
false at the first failed `read_imu_raw`). -/
def imuCollect (reads : Nat → Option Vec3) : Nat → Nat → ImuSums → Option ImuSums
  | 0, _, s => some s
  | fuel + 1, i, s =>
    match reads i with
    | none => none
    | some (ax, ay, az) =>
      imuCollect reads fuel (i + 1)
        ⟨s.sx + ax, s.sy + ay, s.sz + az,
         s.sqx + ax * ax, s.sqy + ay * ay, s.sqz + az * az⟩

/-- Embedding of `calibrate_imu`.  The bias fields are written before the
standard-deviation check, exactly as in the C code; the check
`sqrtf(var) > 0.5f` is embedded as `var > 1/4`. -/
def calibrate_imu (reads : Nat → Option Vec3) (c : SensorCalibration) :
    Bool × SensorCalibration :=
  match imuCollect reads IMU_SAMPLES 0 imuZero with
  | none => (false, c)
  | some s =>
    let mx := s.sx / (IMU_SAMPLES : ℚ)
    let my := s.sy / (IMU_SAMPLES : ℚ)
    let mz := s.sz / (IMU_SAMPLES : ℚ)
    let c1 := { c with
      imu_bias_x := mx
      imu_bias_y := my
      imu_bias_z := mz - 981 / 100 }
    let varx := s.sqx / (IMU_SAMPLES : ℚ) - mx * mx
    let vary := s.sqy / (IMU_SAMPLES : ℚ) - my * my
    let varz := s.sqz / (IMU_SAMPLES : ℚ) - mz * mz
    if varx > 1 / 4 ∨ vary > 1 / 4 ∨ varz > 1 / 4 then
      (false, c1)
    else
      (true, { c1 with imu_scale_x := 1, imu_scale_y := 1, imu_scale_z := 1 })

/-- Running min/max bounds of the magnetometer sweep. -/
structure MagBounds where
  xmin : ℚ
  xmax : ℚ
  ymin : ℚ
  ymax : ℚ
  zmin : ℚ
  zmax : ℚ
deriving DecidableEq

/-- Initial bounds of `calibrate_magnetometer` (`32767.0f` / `-32768.0f`). -/
def magInitBounds : MagBounds := ⟨32767, -32768, 32767, -32768, 32767, -32768⟩

/-- Sampling loop of `calibrate_magnetometer`: `fuel` iterations of the timed
while-loop, folding min/max; `none` if some read fails. -/
def magCollect (reads : Nat → Option Vec3) : Nat → Nat → MagBounds → Option MagBounds
  | 0, _, b => some b
  | fuel + 1, i, b =>
    match reads i with
    | none => none
    | some (mx, my, mz) =>
      magCollect reads fuel (i + 1)
        ⟨if mx < b.xmin then mx else b.xmin,
         if mx > b.xmax then mx else b.xmax,
         if my < b.ymin then my else b.ymin,
         if my > b.ymax then my else b.ymax,
         if mz < b.zmin then mz else b.zmin,
         if mz > b.zmax then mz else b.zmax⟩

/-- Embedding of `calibrate_magnetometer`; `iters` is the number of loop
iterations produced by the 30 s timed window (always at least 1 in the C
code, since the first elapsed-time test is 0 < 30000). -/
def calibrate_magnetometer (iters : Nat) (reads : Nat → Option Vec3)
    (c : SensorCalibration) : Bool × SensorCalibration :=
  match magCollect reads iters 0 magInitBounds with
  | none => (false, c)
  | some b =>
    let dx := (b.xmax - b.xmin) / 2
    let dy := (b.ymax - b.ymin) / 2
    let dz := (b.zmax - b.zmin) / 2
    let avg := (dx + dy + dz) / 3
    (true, { c with
      mag_offset_x := (b.xmax + b.xmin) / 2
      mag_offset_y := (b.ymax + b.ymin) / 2
      mag_offset_z := (b.zmax + b.zmin) / 2
      mag_scale_x := avg / dx
      mag_scale_y := avg / dy
      mag_scale_z := avg / dz })

/-- Embedding of `calibrate_odometer`.  `pulses_left`/`pulses_right` are the
`uint32_t` encoder counts after the commanded 1.000 m move (reduced mod 2^32).
In the C code `fabs(pulses_left - pulses_right)` subtracts in `uint32_t`
arithmetic, wrapping mod 2^32 before the (value-preserving, already
non-negative) conversion to floating point; the average in the denominator
also sums in `uint32_t` first.  The pulses-per-meter fields are written before
the 15 % consistency check, exactly as in the C code.
`distance_m = ODOM_TEST_DISTANCE_MM / 1000.0f = 1`. -/
def calibrate_odometer (move_ok : Bool) (pulses_left pulses_right : Nat)
    (c : SensorCalibration) : Bool × SensorCalibration :=
  if !move_ok then (false, c)
  else
    let pl := pulses_left % U32
    let pr := pulses_right % U32
    let c1 := { c with
      pulses_per_meter_left := (pl : ℚ) / 1
      pulses_per_meter_right := (pr : ℚ) / 1 }
    let diff : Nat := (pl + U32 - pr) % U32
    let errorRel : ℚ := (diff : ℚ) / (((pl + pr) % U32 : Nat) / 2 : ℚ)
    if errorRel > 15 / 100 then (false, c1)
    else (true, c1)

/-- Accumulated sums of the LiDAR sampling loop. -/
structure LidarSums where
  s : ℚ
  sq : ℚ
deriving DecidableEq

/-- Sampling loop of `calibrate_lidar`; a negative distance is the read-failure
sentinel of `read_lidar_distance`. -/
def lidarCollect (reads : Nat → ℚ) : Nat → Nat → LidarSums → Option LidarSums
  | 0, _, acc => some acc
  | fuel + 1, i, acc =>
    let d := reads i
    if d < 0 then none
    else lidarCollect reads fuel (i + 1) ⟨acc.s + d, acc.sq + d * d⟩

/-- Embedding of `calibrate_lidar`.  The offset/noise thresholds only log
warnings and never fail the stage. -/
def calibrate_lidar (reads : Nat → ℚ) (c : SensorCalibration) :
    Bool × SensorCalibration :=
  match lidarCollect reads LIDAR_SAMPLES 0 ⟨0, 0⟩ with
  | none => (false, c)
  | some acc =>
    let avg := acc.s / (LIDAR_SAMPLES : ℚ)
    (true, { c with lidar_offset_distance := 1 - avg })

/-- Embedding of `calibrate_camera` (documented stub: fixed nominal
intrinsics, never fails). -/
def calibrate_camera (c : SensorCalibration) : Bool × SensorCalibration :=
  (true, { c with
    camera_focal_length := 500
    camera_principal_point_x := 320
    camera_principal_point_y := 240
    camera_distortion_k1 := 0
    camera_distortion_k2 := 0 })

/-- Shared 10-sample scalar accumulation loop (battery voltage respectively
temperature). -/
def scalarCollect (reads : Nat → Option ℚ) : Nat → Nat → ℚ → Option ℚ
  | 0, _, s => some s
  | fuel + 1, i, s =>
    match reads i with
    | none => none
    | some v => scalarCollect reads fuel (i + 1) (s + v)

/-- Embedding of `calibrate_battery` (10 samples, nominal voltage 12.0). -/
def calibrate_battery (reads : Nat → Option ℚ) (c : SensorCalibration) :
    Bool × SensorCalibration :=
  match scalarCollect reads 10 0 0 with
  | none => (false, c)
  | some s =>
    (true, { c with
      battery_voltage_offset := 12 - s / 10
      battery_voltage_scale := 1 })

/-- Embedding of `calibrate_temperature` (10 samples, ambient reference 25.0). -/
def calibrate_temperature (reads : Nat → Option ℚ) (c : SensorCalibration) :
    Bool × SensorCalibration :=
  match scalarCollect reads 10 0 0 with
  | none => (false, c)
  | some s =>
    (true, { c with temp_offset := 25 - s / 10 })

/-- Embedding of `validate_calibration`: the read-only range check pass.  The
LiDAR offset check only logs a warning. -/
def validate_calibration (c : SensorCalibration) : Bool :=
  if c.magic ≠ CALIB_MAGIC then false
  else if |c.imu_bias_x| > 5 ∨ |c.imu_bias_y| > 5 ∨ |c.imu_bias_z| > 5 then false
  else if c.imu_scale_x < 1 / 2 ∨ c.imu_scale_x > 2 ∨
          c.imu_scale_y < 1 / 2 ∨ c.imu_scale_y > 2 ∨
          c.imu_scale_z < 1 / 2 ∨ c.imu_scale_z > 2 then false
  else if c.mag_scale_x < 1 / 2 ∨ c.mag_scale_x > 2 ∨
          c.mag_scale_y < 1 / 2 ∨ c.mag_scale_y > 2 ∨
          c.mag_scale_z < 1 / 2 ∨ c.mag_scale_z > 2 then false
  else if c.pulses_per_meter_left < 500 ∨ c.pulses_per_meter_left > 2000 then false
  else if c.pulses_per_meter_right < 500 ∨ c.pulses_per_meter_right > 2000 then false
  else if c.camera_focal_length < 100 ∨ c.camera_focal_length > 1000 then false
  else true

/-- Embedding of `save_calibration_to_eeprom`: a full unconditional overwrite
of the record image in storage. -/
def save_calibration_to_eeprom (c : SensorCalibration)
    (_stored : SensorCalibration) : SensorCalibration := c

/-- Embedding of `load_calibration_from_eeprom`: the whole image is read, then
checked against status and magic; on failure the in-memory record is replaced
by the defaults. -/
def load_calibration_from_eeprom (stored : SensorCalibration) : SensorCalibration :=
  if stored.status = CalibrationStatus.valid ∧ stored.magic = CALIB_MAGIC then stored
  else init_default_calibration

/-- Embedding of `get_calibration_age_seconds`:
`(get_time_ms() - calib.timestamp) / 1000` in `uint32_t` arithmetic. -/
def get_calibration_age_seconds (now : Nat) (c : SensorCalibration) : Nat :=
  u32sub now c.timestamp / 1000

/-- Embedding of `monitor_sensor_drift`.  Arguments: the static `last_check`,
the current clock `now`, and the fresh IMU read.  Returns the record and the
updated `last_check`.  The elapsed-time guard subtracts in `uint32_t`
arithmetic. -/
def monitor_sensor_drift (last_check now : Nat) (read : Option Vec3)
    (c : SensorCalibration) : SensorCalibration × Nat :=
  if u32sub now last_check < 3600000 then (c, last_check)
  else
    match read with
    | none => (c, now)
    | some (ax, ay, az) =>
      if |ax - c.imu_bias_x| > 2 ∨ |ay - c.imu_bias_y| > 2 ∨
         |az - c.imu_bias_z| > 2 then
        ({ c with status := CalibrationStatus.needsRecalibration }, now)
      else (c, now)

/-- Environment of external collaborators consumed by one calibration run:
the raw-read streams, the move-primitive result, the encoder counts after the
1.000 m move, the iteration count of the magnetometer window, and the
monotonic clock value sampled by the Complete transition. -/
structure Env where
  imu_reads : Nat → Option Vec3
  mag_iters : Nat
  mag_reads : Nat → Option Vec3
  move_ok : Bool
  pulses_left : Nat
  pulses_right : Nat
  lidar_reads : Nat → ℚ
  battery_reads : Nat → Option ℚ
  temp_reads : Nat → Option ℚ
  now : Nat

/-- Observable state of the module: the sequencer state, the pending-request
flag, the shared record, and the trace of records written to the EEPROM. -/
structure World where
  calib_state : CalibrationState
  calibration_requested : Bool
  calib : SensorCalibration
  saves : List SensorCalibration

/-- Embedding of one `calibration_state_machine()` tick. -/
def calibration_state_machine (e : Env) (w : World) : World :=
  match w.calib_state with
  | CalibrationState.idle =>
    if w.calibration_requested then
      { w with calib_state := CalibrationState.imuInit }
    else w
  | CalibrationState.imuInit =>
    { w with calib_state := CalibrationState.imuRunning }
  | CalibrationState.imuRunning =>
    { w with
      calib := (calibrate_imu e.imu_reads w.calib).2
      calib_state :=
        if (calibrate_imu e.imu_reads w.calib).1 then CalibrationState.magInit
        else CalibrationState.errorState }
  | CalibrationState.magInit =>
    { w with calib_state := CalibrationState.magRunning }
  | CalibrationState.magRunning =>
    { w with
      calib := (calibrate_magnetometer e.mag_iters e.mag_reads w.calib).2
      calib_state :=
        if (calibrate_magnetometer e.mag_iters e.mag_reads w.calib).1 then
          CalibrationState.odomInit
        else CalibrationState.errorState }
  | CalibrationState.odomInit =>
    { w with calib_state := CalibrationState.odomRunning }
  | CalibrationState.odomRunning =>
    { w with
      calib := (calibrate_odometer e.move_ok e.pulses_left e.pulses_right w.calib).2
      calib_state :=
        if (calibrate_odometer e.move_ok e.pulses_left e.pulses_right w.calib).1 then
          CalibrationState.lidarInit
        else CalibrationState.errorState }
  | CalibrationState.lidarInit =>
    { w with calib_state := CalibrationState.lidarRunning }
  | CalibrationState.lidarRunning =>
    { w with
      calib := (calibrate_lidar e.lidar_reads w.calib).2
      calib_state :=
        if (calibrate_lidar e.lidar_reads w.calib).1 then CalibrationState.cameraInit
        else CalibrationState.errorState }
  | CalibrationState.cameraInit =>
    { w with calib_state := CalibrationState.cameraRunning }
  | CalibrationState.cameraRunning =>
    { w with
      calib := (calibrate_camera w.calib).2
      calib_state :=
        if (calibrate_camera w.calib).1 then CalibrationState.batteryInit
        else CalibrationState.errorState }
  | CalibrationState.batteryInit =>
    { w with calib_state := CalibrationState.batteryRunning }
  | CalibrationState.batteryRunning =>
    { w with
      calib := (calibrate_battery e.battery_reads w.calib).2
      calib_state :=
        if (calibrate_battery e.battery_reads w.calib).1 then CalibrationState.tempInit
        else CalibrationState.errorState }
  | CalibrationState.tempInit =>
    { w with calib_state := CalibrationState.tempRunning }
  | CalibrationState.tempRunning =>
    { w with
      calib := (calibrate_temperature e.temp_reads w.calib).2
      calib_state :=
        if (calibrate_temperature e.temp_reads w.calib).1 then
          CalibrationState.validateState
        else CalibrationState.errorState }
  | CalibrationState.validateState =>
    { w with calib_state :=
        if validate_calibration w.calib then CalibrationState.complete
        else CalibrationState.errorState }
  | CalibrationState.complete =>
    { calib_state := CalibrationState.idle
      calibration_requested := false
      calib := { w.calib with
        status := CalibrationStatus.valid
        timestamp := e.now % U32
        calibration_count := (w.calib.calibration_count + 1) % 2 ^ 16 }
      saves := w.saves ++ [{ w.calib with
        status := CalibrationStatus.valid
        timestamp := e.now % U32
        calibration_count := (w.calib.calibration_count + 1) % 2 ^ 16 }] }
  | CalibrationState.errorState =>
    { w with
      calib := { w.calib with status := CalibrationStatus.invalid }
      calib_state := CalibrationState.idle
      calibration_requested := false }

/-- Iterated sequencer ticks: `ticks e n w` is the world after `n` calls of
`calibration_state_machine` under the fixed environment `e`. -/
def ticks (e : Env) : Nat → World → World
  | 0, w => w
  | n + 1, w => calibration_state_machine e (ticks e n w)

/-- Equality of every record field outside the IMU calibrator's own subset
(the six `imu_bias_*` / `imu_scale_*` fields). -/
def eqExceptImu (a b : SensorCalibration) : Prop :=
  a.status = b.status ∧ a.calibration_count = b.calibration_count ∧
  a.magic = b.magic ∧ a.timestamp = b.timestamp ∧
  a.mag_offset_x = b.mag_offset_x ∧ a.mag_offset_y = b.mag_offset_y ∧
  a.mag_offset_z = b.mag_offset_z ∧ a.mag_scale_x = b.mag_scale_x ∧
  a.mag_scale_y = b.mag_scale_y ∧ a.mag_scale_z = b.mag_scale_z ∧
  a.pulses_per_meter_left = b.pulses_per_meter_left ∧
  a.pulses_per_meter_right = b.pulses_per_meter_right ∧
  a.lidar_offset_distance = b.lidar_offset_distance ∧
  a.lidar_angle_offset = b.lidar_angle_offset ∧
  a.camera_focal_length = b.camera_focal_length ∧
  a.camera_principal_point_x = b.camera_principal_point_x ∧
  a.camera_principal_point_y = b.camera_principal_point_y ∧
  a.camera_distortion_k1 = b.camera_distortion_k1 ∧
  a.camera_distortion_k2 = b.camera_distortion_k2 ∧
  a.battery_voltage_offset = b.battery_voltage_offset ∧
  a.battery_voltage_scale = b.battery_voltage_scale ∧
  a.temp_offset = b.temp_offset

/-- Equality of every record field outside the magnetometer calibrator's own
subset (the six `mag_offset_*` / `mag_scale_*` fields). -/
def eqExceptMag (a b : SensorCalibration) : Prop :=
  a.status = b.status ∧ a.calibration_count = b.calibration_count ∧
  a.magic = b.magic ∧ a.timestamp = b.timestamp ∧
  a.imu_bias_x = b.imu_bias_x ∧ a.imu_bias_y = b.imu_bias_y ∧
  a.imu_bias_z = b.imu_bias_z ∧ a.imu_scale_x = b.imu_scale_x ∧
  a.imu_scale_y = b.imu_scale_y ∧ a.imu_scale_z = b.imu_scale_z ∧
  a.pulses_per_meter_left = b.pulses_per_meter_left ∧
  a.pulses_per_meter_right = b.pulses_per_meter_right ∧
  a.lidar_offset_distance = b.lidar_offset_distance ∧
  a.lidar_angle_offset = b.lidar_angle_offset ∧
  a.camera_focal_length = b.camera_focal_length ∧
  a.camera_principal_point_x = b.camera_principal_point_x ∧
  a.camera_principal_point_y = b.camera_principal_point_y ∧
  a.camera_distortion_k1 = b.camera_distortion_k1 ∧
  a.camera_distortion_k2 = b.camera_distortion_k2 ∧
  a.battery_voltage_offset = b.battery_voltage_offset ∧
  a.battery_voltage_scale = b.battery_voltage_scale ∧
  a.temp_offset = b.temp_offset

/-- Equality of every record field outside the odometer calibrator's own
subset (the two `pulses_per_meter_*` fields). -/
def eqExceptOdom (a b : SensorCalibration) : Prop :=
  a.status = b.status ∧ a.calibration_count = b.calibration_count ∧
  a.magic = b.magic ∧ a.timestamp = b.timestamp ∧
  a.imu_bias_x = b.imu_bias_x ∧ a.imu_bias_y = b.imu_bias_y ∧
  a.imu_bias_z = b.imu_bias_z ∧ a.imu_scale_x = b.imu_scale_x ∧
  a.imu_scale_y = b.imu_scale_y ∧ a.imu_scale_z = b.imu_scale_z ∧
  a.mag_offset_x = b.mag_offset_x ∧ a.mag_offset_y = b.mag_offset_y ∧
  a.mag_offset_z = b.mag_offset_z ∧ a.mag_scale_x = b.mag_scale_x ∧
  a.mag_scale_y = b.mag_scale_y ∧ a.mag_scale_z = b.mag_scale_z ∧
  a.lidar_offset_distance = b.lidar_offset_distance ∧
  a.lidar_angle_offset = b.lidar_angle_offset ∧
  a.camera_focal_length = b.camera_focal_length ∧
  a.camera_principal_point_x = b.camera_principal_point_x ∧
  a.camera_principal_point_y = b.camera_principal_point_y ∧
  a.camera_distortion_k1 = b.camera_distortion_k1 ∧
  a.camera_distortion_k2 = b.camera_distortion_k2 ∧
  a.battery_voltage_offset = b.battery_voltage_offset ∧
  a.battery_voltage_scale = b.battery_voltage_scale ∧
  a.temp_offset = b.temp_offset

/-- Equality of every record field outside the LiDAR calibrator's own write
set (`lidar_offset_distance`; the code never writes `lidar_angle_offset`). -/
def eqExceptLidar (a b : SensorCalibration) : Prop :=
  a.status = b.status ∧ a.calibration_count = b.calibration_count ∧
  a.magic = b.magic ∧ a.timestamp = b.timestamp ∧
  a.imu_bias_x = b.imu_bias_x ∧ a.imu_bias_y = b.imu_bias_y ∧
  a.imu_bias_z = b.imu_bias_z ∧ a.imu_scale_x = b.imu_scale_x ∧
  a.imu_scale_y = b.imu_scale_y ∧ a.imu_scale_z = b.imu_scale_z ∧
  a.mag_offset_x = b.mag_offset_x ∧ a.mag_offset_y = b.mag_offset_y ∧
  a.mag_offset_z = b.mag_offset_z ∧ a.mag_scale_x = b.mag_scale_x ∧
  a.mag_scale_y = b.mag_scale_y ∧ a.mag_scale_z = b.mag_scale_z ∧
  a.pulses_per_meter_left = b.pulses_per_meter_left ∧
  a.pulses_per_meter_right = b.pulses_per_meter_right ∧
  a.lidar_angle_offset = b.lidar_angle_offset ∧
  a.camera_focal_length = b.camera_focal_length ∧
  a.camera_principal_point_x = b.camera_principal_point_x ∧
  a.camera_principal_point_y = b.camera_principal_point_y ∧
  a.camera_distortion_k1 = b.camera_distortion_k1 ∧
  a.camera_distortion_k2 = b.camera_distortion_k2 ∧
  a.battery_voltage_offset = b.battery_voltage_offset ∧
  a.battery_voltage_scale = b.battery_voltage_scale ∧
  a.temp_offset = b.temp_offset

/-- Equality of every record field outside the camera calibrator's own subset
(the five `camera_*` fields). -/
def eqExceptCamera (a b : SensorCalibration) : Prop :=
  a.status = b.status ∧ a.calibration_count = b.calibration_count ∧
  a.magic = b.magic ∧ a.timestamp = b.timestamp ∧
  a.imu_bias_x = b.imu_bias_x ∧ a.imu_bias_y = b.imu_bias_y ∧
  a.imu_bias_z = b.imu_bias_z ∧ a.imu_scale_x = b.imu_scale_x ∧
  a.imu_scale_y = b.imu_scale_y ∧ a.imu_scale_z = b.imu_scale_z ∧
  a.mag_offset_x = b.mag_offset_x ∧ a.mag_offset_y = b.mag_offset_y ∧
  a.mag_offset_z = b.mag_offset_z ∧ a.mag_scale_x = b.mag_scale_x ∧
  a.mag_scale_y = b.mag_scale_y ∧ a.mag_scale_z = b.mag_scale_z ∧
  a.pulses_per_meter_left = b.pulses_per_meter_left ∧
  a.pulses_per_meter_right = b.pulses_per_meter_right ∧
  a.lidar_offset_distance = b.lidar_offset_distance ∧
  a.lidar_angle_offset = b.lidar_angle_offset ∧
  a.battery_voltage_offset = b.battery_voltage_offset ∧
  a.battery_voltage_scale = b.battery_voltage_scale ∧
  a.temp_offset = b.temp_offset

/-- Equality of every record field outside the battery calibrator's own
subset (`battery_voltage_offset`, `battery_voltage_scale`). -/
def eqExceptBattery (a b : SensorCalibration) : Prop :=
  a.status = b.status ∧ a.calibration_count = b.calibration_count ∧
  a.magic = b.magic ∧ a.timestamp = b.timestamp ∧
  a.imu_bias_x = b.imu_bias_x ∧ a.imu_bias_y = b.imu_bias_y ∧
  a.imu_bias_z = b.imu_bias_z ∧ a.imu_scale_x = b.imu_scale_x ∧
  a.imu_scale_y = b.imu_scale_y ∧ a.imu_scale_z = b.imu_scale_z ∧
  a.mag_offset_x = b.mag_offset_x ∧ a.mag_offset_y = b.mag_offset_y ∧
  a.mag_offset_z = b.mag_offset_z ∧ a.mag_scale_x = b.mag_scale_x ∧
  a.mag_scale_y = b.mag_scale_y ∧ a.mag_scale_z = b.mag_scale_z ∧
  a.pulses_per_meter_left = b.pulses_per_meter_left ∧
  a.pulses_per_meter_right = b.pulses_per_meter_right ∧
  a.lidar_offset_distance = b.lidar_offset_distance ∧
  a.lidar_angle_offset = b.lidar_angle_offset ∧
  a.camera_focal_length = b.camera_focal_length ∧
  a.camera_principal_point_x = b.camera_principal_point_x ∧
  a.camera_principal_point_y = b.camera_principal_point_y ∧
  a.camera_distortion_k1 = b.camera_distortion_k1 ∧
  a.camera_distortion_k2 = b.camera_distortion_k2 ∧
  a.temp_offset = b.temp_offset

/-- Equality of every record field outside the temperature calibrator's own
subset (`temp_offset`). -/
def eqExceptTemp (a b : SensorCalibration) : Prop :=
  a.status = b.status ∧ a.calibration_count = b.calibration_count ∧
  a.magic = b.magic ∧ a.timestamp = b.timestamp ∧
  a.imu_bias_x = b.imu_bias_x ∧ a.imu_bias_y = b.imu_bias_y ∧
  a.imu_bias_z = b.imu_bias_z ∧ a.imu_scale_x = b.imu_scale_x ∧
  a.imu_scale_y = b.imu_scale_y ∧ a.imu_scale_z = b.imu_scale_z ∧
  a.mag_offset_x = b.mag_offset_x ∧ a.mag_offset_y = b.mag_offset_y ∧
  a.mag_offset_z = b.mag_offset_z ∧ a.mag_scale_x = b.mag_scale_x ∧
  a.mag_scale_y = b.mag_scale_y ∧ a.mag_scale_z = b.mag_scale_z ∧
  a.pulses_per_meter_left = b.pulses_per_meter_left ∧
  a.pulses_per_meter_right = b.pulses_per_meter_right ∧
  a.lidar_offset_distance = b.lidar_offset_distance ∧
  a.lidar_angle_offset = b.lidar_angle_offset ∧
  a.camera_focal_length = b.camera_focal_length ∧
  a.camera_principal_point_x = b.camera_principal_point_x ∧
  a.camera_principal_point_y = b.camera_principal_point_y ∧
  a.camera_distortion_k1 = b.camera_distortion_k1 ∧
  a.camera_distortion_k2 = b.camera_distortion_k2 ∧
  a.battery_voltage_offset = b.battery_voltage_offset ∧
  a.battery_voltage_scale = b.battery_voltage_scale

lemma calibrate_imu_frame (r : Nat → Option Vec3) (c : SensorCalibration) :
    eqExceptImu (calibrate_imu r c).2 c := by
  unfold calibrate_imu eqExceptImu
  cases imuCollect r IMU_SAMPLES 0 imuZero with
  | none => simp
  | some s => dsimp only; split <;> simp

lemma calibrate_imu_fst_const (r : Nat → Option Vec3) (c c' : SensorCalibration) :
    (calibrate_imu r c).1 = (calibrate_imu r c').1 := by
  unfold calibrate_imu
  cases imuCollect r IMU_SAMPLES 0 imuZero with
  | none => rfl
  | some s => dsimp only; split <;> rfl

lemma calibrate_imu_readfail (r : Nat → Option Vec3) (c : SensorCalibration)
    (h : imuCollect r IMU_SAMPLES 0 imuZero = none) :
    calibrate_imu r c = (false, c) := by
  unfold calibrate_imu
  rw [h]

lemma calibrate_imu_fail_scales (r : Nat → Option Vec3) (c : SensorCalibration)
    (h : (calibrate_imu r c).1 = false) :
    (calibrate_imu r c).2.imu_scale_x = c.imu_scale_x ∧
    (calibrate_imu r c).2.imu_scale_y = c.imu_scale_y ∧
    (calibrate_imu r c).2.imu_scale_z = c.imu_scale_z := by
  revert h
  unfold calibrate_imu
  cases imuCollect r IMU_SAMPLES 0 imuZero with
  | none => intro _; exact ⟨rfl, rfl, rfl⟩
  | some s => dsimp only; split <;> simp

lemma calibrate_magnetometer_frame (n : Nat) (r : Nat → Option Vec3)
    (c : SensorCalibration) : eqExceptMag (calibrate_magnetometer n r c).2 c := by
  unfold calibrate_magnetometer eqExceptMag
  cases magCollect r n 0 magInitBounds with
  | none => simp
  | some b => simp

lemma calibrate_magnetometer_fst_const (n : Nat) (r : Nat → Option Vec3)
    (c c' : SensorCalibration) :
    (calibrate_magnetometer n r c).1 = (calibrate_magnetometer n r c').1 := by
  unfold calibrate_magnetometer
  cases magCollect r n 0 magInitBounds with
  | none => rfl
  | some b => rfl

lemma calibrate_magnetometer_fail (n : Nat) (r : Nat → Option Vec3)
    (c : SensorCalibration) (h : (calibrate_magnetometer n r c).1 = false) :
    calibrate_magnetometer n r c = (false, c) := by
  revert h
  unfold calibrate_magnetometer
  cases magCollect r n 0 magInitBounds with
  | none => intro _; rfl
  | some b => intro h; exact absurd h (by simp)

lemma calibrate_odometer_frame (mv : Bool) (pl pr : Nat) (c : SensorCalibration) :
    eqExceptOdom (calibrate_odometer mv pl pr c).2 c := by
  unfold calibrate_odometer eqExceptOdom
  cases mv with
  | false => simp
  | true => dsimp only; split <;> (try split) <;> simp

lemma calibrate_odometer_fst_const (mv : Bool) (pl pr : Nat)
    (c c' : SensorCalibration) :
    (calibrate_odometer mv pl pr c).1 = (calibrate_odometer mv pl pr c').1 := by
  unfold calibrate_odometer
  cases mv with
  | false => rfl
  | true => dsimp only; split <;> (try split) <;> rfl

lemma calibrate_odometer_movefail (pl pr : Nat) (c : SensorCalibration) :
    calibrate_odometer false pl pr c = (false, c) := rfl

lemma calibrate_lidar_frame (r : Nat → ℚ) (c : SensorCalibration) :
    eqExceptLidar (calibrate_lidar r c).2 c := by
  unfold calibrate_lidar eqExceptLidar
  cases lidarCollect r LIDAR_SAMPLES 0 ⟨0, 0⟩ with
  | none => simp
  | some acc => simp

lemma calibrate_lidar_fst_const (r : Nat → ℚ) (c c' : SensorCalibration) :
    (calibrate_lidar r c).1 = (calibrate_lidar r c').1 := by
  unfold calibrate_lidar
  cases lidarCollect r LIDAR_SAMPLES 0 ⟨0, 0⟩ with
  | none => rfl
  | some acc => rfl

lemma calibrate_lidar_fail (r : Nat → ℚ) (c : SensorCalibration)
    (h : (calibrate_lidar r c).1 = false) :
    calibrate_lidar r c = (false, c) := by
  revert h
  unfold calibrate_lidar
  cases lidarCollect r LIDAR_SAMPLES 0 ⟨0, 0⟩ with
  | none => intro _; rfl
  | some acc => intro h; exact absurd h (by simp)

lemma calibrate_camera_frame (c : SensorCalibration) :
    eqExceptCamera (calibrate_camera c).2 c := by
  unfold calibrate_camera eqExceptCamera
  simp

lemma calibrate_battery_frame (r : Nat → Option ℚ) (c : SensorCalibration) :
    eqExceptBattery (calibrate_battery r c).2 c := by
  unfold calibrate_battery eqExceptBattery
  cases scalarCollect r 10 0 0 with
  | none => simp
  | some s => simp

lemma calibrate_battery_fst_const (r : Nat → Option ℚ) (c c' : SensorCalibration) :
    (calibrate_battery r c).1 = (calibrate_battery r c').1 := by
  unfold calibrate_battery
  cases scalarCollect r 10 0 0 with
  | none => rfl
  | some s => rfl

lemma calibrate_battery_fail (r : Nat → Option ℚ) (c : SensorCalibration)
    (h : (calibrate_battery r c).1 = false) :
    calibrate_battery r c = (false, c) := by
  revert h
  unfold calibrate_battery
  cases scalarCollect r 10 0 0 with
  | none => intro _; rfl
  | some s => intro h; exact absurd h (by simp)

lemma calibrate_temperature_frame (r : Nat → Option ℚ) (c : SensorCalibration) :
    eqExceptTemp (calibrate_temperature r c).2 c := by
  unfold calibrate_temperature eqExceptTemp
  cases scalarCollect r 10 0 0 with
  | none => simp
  | some s => simp

lemma calibrate_temperature_fst_const (r : Nat → Option ℚ) (c c' : SensorCalibration) :
    (calibrate_temperature r c).1 = (calibrate_temperature r c').1 := by
  unfold calibrate_temperature
  cases scalarCollect r 10 0 0 with
  | none => rfl
  | some s => rfl

lemma calibrate_temperature_fail (r : Nat → Option ℚ) (c : SensorCalibration)
    (h : (calibrate_temperature r c).1 = false) :
    calibrate_temperature r c = (false, c) := by
  revert h
  unfold calibrate_temperature
  cases scalarCollect r 10 0 0 with
  | none => intro _; rfl
  | some s => intro h; exact absurd h (by simp)

lemma calibrate_imu_status (r : Nat → Option Vec3) (c : SensorCalibration) :
    (calibrate_imu r c).2.status = c.status := (calibrate_imu_frame r c).1

lemma calibrate_imu_count (r : Nat → Option Vec3) (c : SensorCalibration) :
    (calibrate_imu r c).2.calibration_count = c.calibration_count :=
  (calibrate_imu_frame r c).2.1

lemma calibrate_magnetometer_status (n : Nat) (r : Nat → Option Vec3)
    (c : SensorCalibration) :
    (calibrate_magnetometer n r c).2.status = c.status :=
  (calibrate_magnetometer_frame n r c).1

lemma calibrate_magnetometer_count (n : Nat) (r : Nat → Option Vec3)
    (c : SensorCalibration) :
    (calibrate_magnetometer n r c).2.calibration_count = c.calibration_count :=
  (calibrate_magnetometer_frame n r c).2.1

lemma calibrate_odometer_status (mv : Bool) (pl pr : Nat) (c : SensorCalibration) :
    (calibrate_odometer mv pl pr c).2.status = c.status :=
  (calibrate_odometer_frame mv pl pr c).1

lemma calibrate_odometer_count (mv : Bool) (pl pr : Nat) (c : SensorCalibration) :
    (calibrate_odometer mv pl pr c).2.calibration_count = c.calibration_count :=
  (calibrate_odometer_frame mv pl pr c).2.1

lemma calibrate_lidar_status (r : Nat → ℚ) (c : SensorCalibration) :
    (calibrate_lidar r c).2.status = c.status := (calibrate_lidar_frame r c).1

lemma calibrate_lidar_count (r : Nat → ℚ) (c : SensorCalibration) :
    (calibrate_lidar r c).2.calibration_count = c.calibration_count :=
  (calibrate_lidar_frame r c).2.1

lemma calibrate_camera_status (c : SensorCalibration) :
    (calibrate_camera c).2.status = c.status := (calibrate_camera_frame c).1

lemma calibrate_camera_count (c : SensorCalibration) :
    (calibrate_camera c).2.calibration_count = c.calibration_count :=
  (calibrate_camera_frame c).2.1

lemma calibrate_battery_status (r : Nat → Option ℚ) (c : SensorCalibration) :
    (calibrate_battery r c).2.status = c.status := (calibrate_battery_frame r c).1

lemma calibrate_battery_count (r : Nat → Option ℚ) (c : SensorCalibration) :
    (calibrate_battery r c).2.calibration_count = c.calibration_count :=
  (calibrate_battery_frame r c).2.1

lemma calibrate_temperature_status (r : Nat → Option ℚ) (c : SensorCalibration) :
    (calibrate_temperature r c).2.status = c.status :=
  (calibrate_temperature_frame r c).1

lemma calibrate_temperature_count (r : Nat → Option ℚ) (c : SensorCalibration) :
    (calibrate_temperature r c).2.calibration_count = c.calibration_count :=
  (calibrate_temperature_frame r c).2.1

lemma step_saves_of_ne_complete (e : Env) (w : World)
    (h : w.calib_state ≠ CalibrationState.complete) :
    (calibration_state_machine e w).saves = w.saves := by
  unfold calibration_state_machine
  cases hs : w.calib_state <;> simp_all
  split <;> rfl

lemma imuCollect_none_iff (r : Nat → Option Vec3) :
    ∀ (k i : Nat) (s : ImuSums),
      imuCollect r k i s = none ↔ ∃ j, j < k ∧ r (i + j) = none := by
  intro k
  induction k with
  | zero => intro i s; simp [imuCollect]
  | succ n ih =>
    intro i s
    cases hr : r i with
    | none =>
      simp only [imuCollect, hr]
      exact iff_of_true (by simp) ⟨0, Nat.succ_pos n, by simpa using hr⟩
    | some v =>
      obtain ⟨a1, a2, a3⟩ := v
      simp only [imuCollect, hr]
      rw [ih]
      constructor
      · rintro ⟨j, hj, hnone⟩
        exact ⟨j + 1, by omega, by rw [show i + (j + 1) = i + 1 + j by omega]; exact hnone⟩
      · rintro ⟨j, hj, hnone⟩
        cases j with
        | zero =>
          rw [Nat.add_zero, hr] at hnone
          exact absurd hnone (by simp)
        | succ j' =>
          exact ⟨j', by omega, by rw [show i + 1 + j' = i + (j' + 1) by omega]; exact hnone⟩

lemma imuCollect_const (r : Nat → Option Vec3) (v1 v2 v3 : ℚ) :
    ∀ (k i : Nat) (s : ImuSums),
      (∀ j, j < k → r (i + j) = some (v1, v2, v3)) →
      imuCollect r k i s =
        some ⟨s.sx + k * v1, s.sy + k * v2, s.sz + k * v3,
              s.sqx + k * (v1 * v1), s.sqy + k * (v2 * v2), s.sqz + k * (v3 * v3)⟩ := by
  intro k
  induction k with
  | zero => intro i s _; simp [imuCollect]
  | succ n ih =>
    intro i s h
    have h0 : r i = some (v1, v2, v3) := by simpa using h 0 (Nat.succ_pos n)
    simp only [imuCollect, h0]
    rw [ih (i + 1) _ (fun j hj => by
      rw [show i + 1 + j = i + (j + 1) by omega]; exact h (j + 1) (by omega))]
    simp only [Option.some.injEq, ImuSums.mk.injEq]
    refine ⟨?_, ?_, ?_, ?_, ?_, ?_⟩ <;> push_cast <;> ring

lemma calibrate_imu_of_collect (r : Nat → Option Vec3) (c : SensorCalibration)
    (s : ImuSums) (h : imuCollect r IMU_SAMPLES 0 imuZero = some s)
    (hvar : ¬(s.sqx / (IMU_SAMPLES : ℚ) -
                s.sx / (IMU_SAMPLES : ℚ) * (s.sx / (IMU_SAMPLES : ℚ)) > 1 / 4 ∨
              s.sqy / (IMU_SAMPLES : ℚ) -
                s.sy / (IMU_SAMPLES : ℚ) * (s.sy / (IMU_SAMPLES : ℚ)) > 1 / 4 ∨
              s.sqz / (IMU_SAMPLES : ℚ) -
                s.sz / (IMU_SAMPLES : ℚ) * (s.sz / (IMU_SAMPLES : ℚ)) > 1 / 4)) :
    calibrate_imu r c =
      (true, { c with
        imu_bias_x := s.sx / (IMU_SAMPLES : ℚ)
        imu_bias_y := s.sy / (IMU_SAMPLES : ℚ)
        imu_bias_z := s.sz / (IMU_SAMPLES : ℚ) - 981 / 100
        imu_scale_x := 1
        imu_scale_y := 1
        imu_scale_z := 1 }) := by
  unfold calibrate_imu
  rw [h]
  dsimp only
  rw [if_neg hvar]

/-- Mock environment in which all seven calibrators succeed and the resulting
record passes validation: constant IMU samples at exactly standard gravity, a
symmetric two-sample magnetometer sweep, equal encoder counts, a LiDAR target
at exactly 1 m, nominal battery voltage and ambient temperature. -/
def happyEnv : Env where
  imu_reads := fun _ => some (0, 0, 981 / 100)
  mag_iters := 2
  mag_reads := fun i => if i = 0 then some (-1, -1, -1) else some (1, 1, 1)
  move_ok := true
  pulses_left := 1000
  pulses_right := 1000
  lidar_reads := fun _ => 1
  battery_reads := fun _ => some 12
  temp_reads := fun _ => some 25
  now := 123456

/-- Initial world: sequencer Idle, a pending calibration request, the default
record in memory, and no persistence calls yet. -/
def w0 : World where
  calib_state := CalibrationState.idle
  calibration_requested := true
  calib := init_default_calibration
  saves := []

lemma lidarCollect_const (r : Nat → ℚ) (q : ℚ) (hq : ¬q < 0) :
    ∀ (k i : Nat) (acc : LidarSums),
      (∀ j, j < k → r (i + j) = q) →
      lidarCollect r k i acc = some ⟨acc.s + k * q, acc.sq + k * (q * q)⟩ := by
  intro k
  induction k with
  | zero => intro i acc _; simp [lidarCollect]
  | succ n ih =>
    intro i acc h
    have h0 : r i = q := by simpa using h 0 (Nat.succ_pos n)
    rw [lidarCollect, h0]
    rw [if_neg hq]
    rw [ih (i + 1) _ (fun j hj => by
      rw [show i + 1 + j = i + (j + 1) by omega]; exact h (j + 1) (by omega))]
    simp only [Option.some.injEq, LidarSums.mk.injEq]
    constructor <;> push_cast <;> ring

lemma scalarCollect_const (r : Nat → Option ℚ) (q : ℚ) :
    ∀ (k i : Nat) (s : ℚ),
      (∀ j, j < k → r (i + j) = some q) →
      scalarCollect r k i s = some (s + k * q) := by
  intro k
  induction k with
  | zero => intro i s _; simp [scalarCollect]
  | succ n ih =>
    intro i s h
    have h0 : r i = some q := by simpa using h 0 (Nat.succ_pos n)
    simp only [scalarCollect, h0]
    rw [ih (i + 1) _ (fun j hj => by
      rw [show i + 1 + j = i + (j + 1) by omega]; exact h (j + 1) (by omega))]
    congr 1
    push_cast
    ring

/-- Record after the IMU stage of a run that started from record `c`. -/
def stage1 (e : Env) (c : SensorCalibration) : SensorCalibration :=
  (calibrate_imu e.imu_reads c).2

/-- Record after the magnetometer stage. -/
def stage2 (e : Env) (c : SensorCalibration) : SensorCalibration :=
  (calibrate_magnetometer e.mag_iters e.mag_reads (stage1 e c)).2

/-- Record after the odometer stage. -/
def stage3 (e : Env) (c : SensorCalibration) : SensorCalibration :=
  (calibrate_odometer e.move_ok e.pulses_left e.pulses_right (stage2 e c)).2

/-- Record after the LiDAR stage. -/
def stage4 (e : Env) (c : SensorCalibration) : SensorCalibration :=
  (calibrate_lidar e.lidar_reads (stage3 e c)).2

/-- Record after the camera stage. -/
def stage5 (e : Env) (c : SensorCalibration) : SensorCalibration :=
  (calibrate_camera (stage4 e c)).2

/-- Record after the battery stage. -/
def stage6 (e : Env) (c : SensorCalibration) : SensorCalibration :=
  (calibrate_battery e.battery_reads (stage5 e c)).2

/-- Record after the temperature stage: the record handed to the Validate
state of a run in which no stage failed. -/
def stage7 (e : Env) (c : SensorCalibration) : SensorCalibration :=
  (calibrate_temperature e.temp_reads (stage6 e c)).2

lemma stage7_count (e : Env) (c : SensorCalibration) :
    (stage7 e c).calibration_count = c.calibration_count := by
  simp [stage7, stage6, stage5, stage4, stage3, stage2, stage1,
    calibrate_temperature_count, calibrate_battery_count, calibrate_camera_count,
    calibrate_lidar_count, calibrate_odometer_count, calibrate_magnetometer_count,
    calibrate_imu_count]

lemma stage7_status (e : Env) (c : SensorCalibration) :
    (stage7 e c).status = c.status := by
  simp [stage7, stage6, stage5, stage4, stage3, stage2, stage1,
    calibrate_temperature_status, calibrate_battery_status, calibrate_camera_status,
    calibrate_lidar_status, calibrate_odometer_status, calibrate_magnetometer_status,
    calibrate_imu_status]

lemma happy_imu (c : SensorCalibration) :
    calibrate_imu happyEnv.imu_reads c =
      (true, { c with
        imu_bias_x := 0
        imu_bias_y := 0
        imu_bias_z := 0
        imu_scale_x := 1
        imu_scale_y := 1
        imu_scale_z := 1 }) := by
  have hcol := imuCollect_const happyEnv.imu_reads 0 0 (981 / 100) IMU_SAMPLES 0
    imuZero (fun j _ => rfl)
  unfold calibrate_imu
  rw [hcol]
  norm_num [imuZero, IMU_SAMPLES]

lemma happy_magCollect :
    magCollect happyEnv.mag_reads 2 0 magInitBounds =
      some ⟨-1, 1, -1, 1, -1, 1⟩ := by
  rw [show (2 : Nat) = 0 + 1 + 1 from rfl]
  simp only [magCollect, happyEnv]
  norm_num [magInitBounds]

lemma happy_mag (c : SensorCalibration) :
    calibrate_magnetometer happyEnv.mag_iters happyEnv.mag_reads c =
      (true, { c with
        mag_offset_x := 0
        mag_offset_y := 0
        mag_offset_z := 0
        mag_scale_x := 1
        mag_scale_y := 1
        mag_scale_z := 1 }) := by
  show calibrate_magnetometer 2 happyEnv.mag_reads c = _
  unfold calibrate_magnetometer
  rw [happy_magCollect]
  norm_num

lemma happy_odom (c : SensorCalibration) :
    calibrate_odometer happyEnv.move_ok happyEnv.pulses_left happyEnv.pulses_right c =
      (true, { c with
        pulses_per_meter_left := 1000
        pulses_per_meter_right := 1000 }) := by
  show calibrate_odometer true 1000 1000 c = _
  unfold calibrate_odometer
  norm_num [U32]

lemma happy_lidar (c : SensorCalibration) :
    calibrate_lidar happyEnv.lidar_reads c =
      (true, { c with lidar_offset_distance := 0 }) := by
  have hcol := lidarCollect_const happyEnv.lidar_reads 1 (by norm_num)
    LIDAR_SAMPLES 0 ⟨0, 0⟩ (fun j _ => rfl)
  unfold calibrate_lidar
  rw [hcol]
  norm_num [LIDAR_SAMPLES]

lemma happy_battery (c : SensorCalibration) :
    calibrate_battery happyEnv.battery_reads c =
      (true, { c with
        battery_voltage_offset := 0
        battery_voltage_scale := 1 }) := by
  have hcol := scalarCollect_const happyEnv.battery_reads 12 10 0 0 (fun j _ => rfl)
  unfold calibrate_battery
  rw [hcol]
  norm_num

lemma happy_temp (c : SensorCalibration) :
    calibrate_temperature happyEnv.temp_reads c =
      (true, { c with temp_offset := 0 }) := by
  have hcol := scalarCollect_const happyEnv.temp_reads 25 10 0 0 (fun j _ => rfl)
  unfold calibrate_temperature
  rw [hcol]
  norm_num

lemma happy_stage7 :
    stage7 happyEnv init_default_calibration = init_default_calibration := by
  simp only [stage7, stage6, stage5, stage4, stage3, stage2, stage1,
    happy_imu, happy_mag, happy_odom, happy_lidar, happy_battery, happy_temp,
    calibrate_camera]
  rfl

lemma validate_init :
    validate_calibration init_default_calibration = true := by
  norm_num [validate_calibration, init_default_calibration]

lemma sixteen_tick_run (e : Env) (w : World)
    (hs : w.calib_state = CalibrationState.idle)
    (hr : w.calibration_requested = true)
    (h1 : (calibrate_imu e.imu_reads w.calib).1 = true)
    (h2 : (calibrate_magnetometer e.mag_iters e.mag_reads w.calib).1 = true)
    (h3 : (calibrate_odometer e.move_ok e.pulses_left e.pulses_right w.calib).1 = true)
    (h4 : (calibrate_lidar e.lidar_reads w.calib).1 = true)
    (h5 : (calibrate_battery e.battery_reads w.calib).1 = true)
    (h6 : (calibrate_temperature e.temp_reads w.calib).1 = true)
    (hv : validate_calibration (stage7 e w.calib) = true) :
    ticks e 16 w =
      { w with
        calib_state := CalibrationState.complete
        calib := stage7 e w.calib } ∧
    ticks e 17 w =
      { calib_state := CalibrationState.idle
        calibration_requested := false
        calib := { stage7 e w.calib with
          status := CalibrationStatus.valid
          timestamp := e.now % U32
          calibration_count := ((stage7 e w.calib).calibration_count + 1) % 2 ^ 16 }
        saves := w.saves ++ [{ stage7 e w.calib with
          status := CalibrationStatus.valid
          timestamp := e.now % U32
          calibration_count := ((stage7 e w.calib).calibration_count + 1) % 2 ^ 16 }] } := by
  have h2' : (calibrate_magnetometer e.mag_iters e.mag_reads (stage1 e w.calib)).1 = true :=
    (calibrate_magnetometer_fst_const e.mag_iters e.mag_reads (stage1 e w.calib)
      w.calib).trans h2
  have h3' : (calibrate_odometer e.move_ok e.pulses_left e.pulses_right
      (stage2 e w.calib)).1 = true :=
    (calibrate_odometer_fst_const e.move_ok e.pulses_left e.pulses_right
      (stage2 e w.calib) w.calib).trans h3
  have h4' : (calibrate_lidar e.lidar_reads (stage3 e w.calib)).1 = true :=
    (calibrate_lidar_fst_const e.lidar_reads (stage3 e w.calib) w.calib).trans h4
  have h5' : (calibrate_battery e.battery_reads (stage5 e w.calib)).1 = true :=
    (calibrate_battery_fst_const e.battery_reads (stage5 e w.calib) w.calib).trans h5
  have h6' : (calibrate_temperature e.temp_reads (stage6 e w.calib)).1 = true :=
    (calibrate_temperature_fst_const e.temp_reads (stage6 e w.calib) w.calib).trans h6
  have t1 : ticks e 1 w = { w with calib_state := CalibrationState.imuInit } := by
    rw [show ticks e 1 w = calibration_state_machine e (ticks e 0 w) from rfl,
        show ticks e 0 w = w from rfl]
    unfold calibration_state_machine
    rw [hs]
    simp [hr]
  have t2 : ticks e 2 w = { w with calib_state := CalibrationState.imuRunning } := by
    rw [show ticks e 2 w = calibration_state_machine e (ticks e 1 w) from rfl, t1]
    unfold calibration_state_machine
    simp
  have t3 : ticks e 3 w =
      { w with calib_state := CalibrationState.magInit, calib := stage1 e w.calib } := by
    rw [show ticks e 3 w = calibration_state_machine e (ticks e 2 w) from rfl, t2]
    unfold calibration_state_machine
    simp [stage1, h1]
  have t4 : ticks e 4 w =
      { w with calib_state := CalibrationState.magRunning, calib := stage1 e w.calib } := by
    rw [show ticks e 4 w = calibration_state_machine e (ticks e 3 w) from rfl, t3]
    unfold calibration_state_machine
    simp
  have t5 : ticks e 5 w =
      { w with calib_state := CalibrationState.odomInit, calib := stage2 e w.calib } := by
    rw [show ticks e 5 w = calibration_state_machine e (ticks e 4 w) from rfl, t4]
    unfold calibration_state_machine
    simp [stage2, h2']
  have t6 : ticks e 6 w =
      { w with calib_state := CalibrationState.odomRunning, calib := stage2 e w.calib } := by
    rw [show ticks e 6 w = calibration_state_machine e (ticks e 5 w) from rfl, t5]
    unfold calibration_state_machine
    simp
  have t7 : ticks e 7 w =
      { w with calib_state := CalibrationState.lidarInit, calib := stage3 e w.calib } := by
    rw [show ticks e 7 w = calibration_state_machine e (ticks e 6 w) from rfl, t6]
    unfold calibration_state_machine
    simp [stage3, h3']
  have t8 : ticks e 8 w =
      { w with calib_state := CalibrationState.lidarRunning, calib := stage3 e w.calib } := by
    rw [show ticks e 8 w = calibration_state_machine e (ticks e 7 w) from rfl, t7]
    unfold calibration_state_machine
    simp
  have t9 : ticks e 9 w =
      { w with calib_state := CalibrationState.cameraInit, calib := stage4 e w.calib } := by
    rw [show ticks e 9 w = calibration_state_machine e (ticks e 8 w) from rfl, t8]
    unfold calibration_state_machine
    simp [stage4, h4']
  have t10 : ticks e 10 w =
      { w with calib_state := CalibrationState.cameraRunning, calib := stage4 e w.calib } := by
    rw [show ticks e 10 w = calibration_state_machine e (ticks e 9 w) from rfl, t9]
    unfold calibration_state_machine
    simp
  have t11 : ticks e 11 w =
      { w with calib_state := CalibrationState.batteryInit, calib := stage5 e w.calib } := by
    rw [show ticks e 11 w = calibration_state_machine e (ticks e 10 w) from rfl, t10]
    unfold calibration_state_machine
    simp [stage5, calibrate_camera]
  have t12 : ticks e 12 w =
      { w with calib_state := CalibrationState.batteryRunning, calib := stage5 e w.calib } := by
    rw [show ticks e 12 w = calibration_state_machine e (ticks e 11 w) from rfl, t11]
    unfold calibration_state_machine
    simp
  have t13 : ticks e 13 w =
      { w with calib_state := CalibrationState.tempInit, calib := stage6 e w.calib } := by
    rw [show ticks e 13 w = calibration_state_machine e (ticks e 12 w) from rfl, t12]
    unfold calibration_state_machine
    simp [stage6, h5']
  have t14 : ticks e 14 w =
      { w with calib_state := CalibrationState.tempRunning, calib := stage6 e w.calib } := by
    rw [show ticks e 14 w = calibration_state_machine e (ticks e 13 w) from rfl, t13]
    unfold calibration_state_machine
    simp
  have t15 : ticks e 15 w =
      { w with calib_state := CalibrationState.validateState, calib := stage7 e w.calib } := by
    rw [show ticks e 15 w = calibration_state_machine e (ticks e 14 w) from rfl, t14]
    unfold calibration_state_machine
    simp [stage7, h6']
  have t16 : ticks e 16 w =
      { w with calib_state := CalibrationState.complete, calib := stage7 e w.calib } := by
    rw [show ticks e 16 w = calibration_state_machine e (ticks e 15 w) from rfl, t15]
    unfold calibration_state_machine
    simp [hv]
  refine ⟨t16, ?_⟩
  rw [show ticks e 17 w = calibration_state_machine e (ticks e 16 w) from rfl, t16]
  unfold calibration_state_machine
  simp

/-- C1: the claim says the odometer stage fails exactly when the relative
difference between left and right counts exceeds 15 % of their average (or the
move fails).  The code computes `pulses_left - pulses_right` in `uint32_t`
arithmetic, so whenever the right count exceeds the left count the difference
wraps to nearly 2^32 and the stage fails even for counts (1000, 1001), whose
true relative difference is about 0.1 %; the same counts swapped succeed.
This theorem evaluates the embedded code at that failing input. -/
theorem odometer_wrap_mismatch :
    (calibrate_odometer true 1000 1001 init_default_calibration).1 = false ∧
    (calibrate_odometer true 1001 1000 init_default_calibration).1 = true ∧
    |(1000 : ℚ) - 1001| / (((1000 : ℚ) + 1001) / 2) ≤ 15 / 100 := by
  refine ⟨?_, ?_, by norm_num⟩ <;>
    (unfold calibrate_odometer; norm_num [U32])

/-- C2 counterexample: the odometer calibrator returns failure on encoder
counts (2000, 1000) — relative difference 2/3, above the 15 % limit — yet the
pulses-per-meter fields of the record have already been overwritten, so a
failing calibrator does not leave every field of the record unchanged. -/
theorem odometer_failure_still_writes :
    (calibrate_odometer true 2000 1000 init_default_calibration).1 = false ∧
    (calibrate_odometer true 2000 1000 init_default_calibration).2.pulses_per_meter_left ≠
      init_default_calibration.pulses_per_meter_left := by
  unfold calibrate_odometer
  norm_num [U32, init_default_calibration]

/-- C2 (amended): every calibrator leaves all fields outside its own subset
unchanged, and a read failure (or move failure) leaves the whole record
unchanged; but on an out-of-range-statistic failure the stage's derived
fields have already been written: the IMU stage keeps the freshly computed
bias triple (scales untouched) and the odometer stage keeps the freshly
computed pulses-per-meter pair. -/
theorem calibrator_write_discipline :
    (∀ r c, eqExceptImu (calibrate_imu r c).2 c) ∧
    (∀ n r c, eqExceptMag (calibrate_magnetometer n r c).2 c) ∧
    (∀ mv pl pr c, eqExceptOdom (calibrate_odometer mv pl pr c).2 c) ∧
    (∀ r c, eqExceptLidar (calibrate_lidar r c).2 c) ∧
    (∀ c, eqExceptCamera (calibrate_camera c).2 c) ∧
    (∀ r c, eqExceptBattery (calibrate_battery r c).2 c) ∧
    (∀ r c, eqExceptTemp (calibrate_temperature r c).2 c) ∧
    (∀ r c, imuCollect r IMU_SAMPLES 0 imuZero = none →
      calibrate_imu r c = (false, c)) ∧
    (∀ r c, (calibrate_imu r c).1 = false →
      (calibrate_imu r c).2.imu_scale_x = c.imu_scale_x ∧
      (calibrate_imu r c).2.imu_scale_y = c.imu_scale_y ∧
      (calibrate_imu r c).2.imu_scale_z = c.imu_scale_z) ∧
    (∀ n r c, (calibrate_magnetometer n r c).1 = false →
      calibrate_magnetometer n r c = (false, c)) ∧
    (∀ pl pr c, calibrate_odometer false pl pr c = (false, c)) ∧
    (∀ r c, (calibrate_lidar r c).1 = false → calibrate_lidar r c = (false, c)) ∧
    (∀ r c, (calibrate_battery r c).1 = false → calibrate_battery r c = (false, c)) ∧
    (∀ r c, (calibrate_temperature r c).1 = false →
      calibrate_temperature r c = (false, c)) :=
  ⟨calibrate_imu_frame, calibrate_magnetometer_frame, calibrate_odometer_frame,
   calibrate_lidar_frame, calibrate_camera_frame, calibrate_battery_frame,
   calibrate_temperature_frame, calibrate_imu_readfail, calibrate_imu_fail_scales,
   calibrate_magnetometer_fail, calibrate_odometer_movefail, calibrate_lidar_fail,
   calibrate_battery_fail, calibrate_temperature_fail⟩

/-- Witness for the amended C2 theorem: an IMU run whose very first read fails
returns failure and the untouched record. -/
theorem calibrator_write_discipline_witness :
    calibrate_imu (fun _ => none) init_default_calibration =
      (false, init_default_calibration) :=
  calibrator_write_discipline.2.2.2.2.2.2.2.1 (fun _ => none) init_default_calibration
    ((imuCollect_none_iff (fun _ => none) IMU_SAMPLES 0 imuZero).mpr
      ⟨0, by norm_num [IMU_SAMPLES], rfl⟩)

/-- C8: a record whose magic matches and whose status is Valid at save time is
returned field-for-field identical by a subsequent load. -/
theorem eeprom_round_trip (c stored : SensorCalibration)
    (hm : c.magic = CALIB_MAGIC) (hst : c.status = CalibrationStatus.valid) :
    load_calibration_from_eeprom (save_calibration_to_eeprom c stored) = c := by
  unfold save_calibration_to_eeprom load_calibration_from_eeprom
  rw [if_pos ⟨hst, hm⟩]

/-- Concrete record with matching magic and Valid status. -/
def validRecord : SensorCalibration :=
  { init_default_calibration with status := CalibrationStatus.valid }

/-- Witness for C8 at a concrete valid record. -/
theorem eeprom_round_trip_witness :
    load_calibration_from_eeprom
      (save_calibration_to_eeprom validRecord init_default_calibration) = validRecord :=
  eeprom_round_trip validRecord init_default_calibration rfl rfl

/-- C9: on an eligible drift check whose fresh inertial reading deviates from
the stored bias by more than 2.0 on some axis, the Drift Monitor sets status
to NeedsRecalibration on any record whatsoever — in particular, overwriting a
previous status of Invalid — and changes no other field. -/
theorem drift_sets_needs_recalibration (last_check now : Nat) (a1 a2 a3 : ℚ)
    (c : SensorCalibration)
    (helig : ¬u32sub now last_check < 3600000)
    (hd : |a1 - c.imu_bias_x| > 2 ∨ |a2 - c.imu_bias_y| > 2 ∨
          |a3 - c.imu_bias_z| > 2) :
    monitor_sensor_drift last_check now (some (a1, a2, a3)) c =
      ({ c with status := CalibrationStatus.needsRecalibration }, now) := by
  unfold monitor_sensor_drift
  rw [if_neg helig]
  dsimp only
  rw [if_pos hd]

/-- Witness for C9: a drift check on a record whose status is Invalid, with an
x-axis reading 10 against stored bias 0. -/
theorem drift_sets_needs_recalibration_witness :
    monitor_sensor_drift 0 3600000 (some (10, 0, 0)) init_default_calibration =
      ({ init_default_calibration with
          status := CalibrationStatus.needsRecalibration }, 3600000) ∧
    init_default_calibration.status = CalibrationStatus.invalid :=
  ⟨drift_sets_needs_recalibration 0 3600000 10 0 0 init_default_calibration
      (by decide) (Or.inl (by norm_num [init_default_calibration])),
   rfl⟩

/-- C10 counterexample: with current clock 0 and stored timestamp 2^32 − 1
(which exceeds the clock), the wrapped difference is 1 ms and the reported age
is 0 seconds — not a huge value. -/
theorem age_zero_despite_future_timestamp :
    (0 : Nat) < 2 ^ 32 - 1 ∧
    get_calibration_age_seconds 0
      { init_default_calibration with timestamp := 2 ^ 32 - 1 } = 0 := by
  constructor
  · decide
  · show u32sub 0 (2 ^ 32 - 1) / 1000 = 0
    decide

/-- C10 (amended): the age is `((now − timestamp) mod 2^32) / 1000` computed
in wrapping `uint32_t` arithmetic; whenever the stored timestamp exceeds the
clock, the result is the wrapped value `(2^32 − (timestamp − now)) / 1000`,
which is nonzero (a huge value) whenever the excess is at most 2^32 − 1000;
only when the timestamp exceeds the clock by more than 2^32 − 1000 does the
division round the wrapped difference down to 0. -/
theorem age_wrap_formula (now : Nat) (c : SensorCalibration)
    (hn : now < U32) (ht : c.timestamp < U32) :
    get_calibration_age_seconds now c = (now + U32 - c.timestamp) % U32 / 1000 ∧
    (now < c.timestamp →
      get_calibration_age_seconds now c = (U32 - (c.timestamp - now)) / 1000) ∧
    (now < c.timestamp → c.timestamp - now ≤ U32 - 1000 →
      get_calibration_age_seconds now c ≠ 0) := by
  have hU : U32 = 4294967296 := rfl
  unfold get_calibration_age_seconds u32sub
  rw [Nat.mod_eq_of_lt hn, Nat.mod_eq_of_lt ht]
  have key : now < c.timestamp →
      (now + U32 - c.timestamp) % U32 = U32 - (c.timestamp - now) := by
    intro h
    rw [show now + U32 - c.timestamp = U32 - (c.timestamp - now) by omega,
        Nat.mod_eq_of_lt (by rw [hU] at *; omega)]
  refine ⟨rfl, fun h => by rw [key h], fun h h2 => ?_⟩
  rw [key h]
  have h1000 : 1000 ≤ U32 - (c.timestamp - now) := by rw [hU] at *; omega
  have := Nat.one_le_div_iff (show 0 < 1000 by norm_num) |>.mpr h1000
  omega

/-- Witness for the amended C10 theorem: clock 0, stored timestamp 5000. -/
theorem age_wrap_formula_witness :
    get_calibration_age_seconds 0
      { init_default_calibration with timestamp := 5000 } ≠ 0 :=
  (age_wrap_formula 0 { init_default_calibration with timestamp := 5000 }
      (by decide) (by decide)).2.2 (by decide) (by decide)

/-- C3 counterexample: under a mock environment in which all seven calibrators
succeed and validation passes, after exactly 16 ticks the sequencer has only
just arrived in the Complete state: the record status is still not Valid,
nothing has been persisted, and the run counter is unchanged — those effects
happen on the seventeenth tick. -/
theorem sixteen_ticks_not_yet_persisted :
    (ticks happyEnv 16 w0).calib_state = CalibrationState.complete ∧
    (ticks happyEnv 16 w0).calib.status ≠ CalibrationStatus.valid ∧
    (ticks happyEnv 16 w0).saves = [] ∧
    (ticks happyEnv 16 w0).calib.calibration_count = w0.calib.calibration_count := by
  have hw : w0.calib = init_default_calibration := rfl
  obtain ⟨h16, -⟩ := sixteen_tick_run happyEnv w0 rfl rfl
    (by rw [hw, happy_imu]) (by rw [hw, happy_mag]) (by rw [hw, happy_odom])
    (by rw [hw, happy_lidar]) (by rw [hw, happy_battery]) (by rw [hw, happy_temp])
    (by rw [hw, happy_stage7]; exact validate_init)
  rw [h16]
  refine ⟨rfl, ?_, rfl, ?_⟩
  · show (stage7 happyEnv w0.calib).status ≠ _
    rw [stage7_status, hw]
    decide
  · show (stage7 happyEnv w0.calib).calibration_count = _
    exact stage7_count happyEnv w0.calib

/-- C3 (amended): starting from Idle with a pending request, if all seven
calibrators succeed and the record after the seven stages passes validation,
then 16 ticks reach the Complete state (with nothing persisted yet and the
status still unchanged); the seventeenth tick — the Complete transition —
marks the status Valid, increments the run counter by 1 (mod 2^16), persists
the record, returns to Idle and clears the request flag. -/
theorem successful_run_sixteen_then_seventeen (e : Env) (w : World)
    (hs : w.calib_state = CalibrationState.idle)
    (hr : w.calibration_requested = true)
    (h1 : (calibrate_imu e.imu_reads w.calib).1 = true)
    (h2 : (calibrate_magnetometer e.mag_iters e.mag_reads w.calib).1 = true)
    (h3 : (calibrate_odometer e.move_ok e.pulses_left e.pulses_right w.calib).1 = true)
    (h4 : (calibrate_lidar e.lidar_reads w.calib).1 = true)
    (h5 : (calibrate_battery e.battery_reads w.calib).1 = true)
    (h6 : (calibrate_temperature e.temp_reads w.calib).1 = true)
    (hv : validate_calibration (stage7 e w.calib) = true) :
    (ticks e 16 w).calib_state = CalibrationState.complete ∧
    (ticks e 16 w).saves = w.saves ∧
    (ticks e 16 w).calib.status = w.calib.status ∧
    (ticks e 17 w).calib_state = CalibrationState.idle ∧
    (ticks e 17 w).calibration_requested = false ∧
    (ticks e 17 w).calib.status = CalibrationStatus.valid ∧
    (ticks e 17 w).calib.calibration_count = (w.calib.calibration_count + 1) % 2 ^ 16 ∧
    (ticks e 17 w).saves = w.saves ++ [(ticks e 17 w).calib] := by
  obtain ⟨h16, h17⟩ := sixteen_tick_run e w hs hr h1 h2 h3 h4 h5 h6 hv
  rw [h16, h17]
  refine ⟨rfl, rfl, ?_, rfl, rfl, rfl, ?_, rfl⟩
  · show (stage7 e w.calib).status = _
    exact stage7_status e w.calib
  · show ((stage7 e w.calib).calibration_count + 1) % 2 ^ 16 = _
    rw [stage7_count]

/-- Witness for the amended C3 theorem at the all-success mock environment. -/
theorem successful_run_sixteen_then_seventeen_witness :
    (ticks happyEnv 16 w0).calib_state = CalibrationState.complete ∧
    (ticks happyEnv 17 w0).calib_state = CalibrationState.idle ∧
    (ticks happyEnv 17 w0).calib.status = CalibrationStatus.valid ∧
    (ticks happyEnv 17 w0).calib.calibration_count = 1 ∧
    (ticks happyEnv 17 w0).saves = [] ++ [(ticks happyEnv 17 w0).calib] := by
  have hw : w0.calib = init_default_calibration := rfl
  have h := successful_run_sixteen_then_seventeen happyEnv w0 rfl rfl
    (by rw [hw, happy_imu]) (by rw [hw, happy_mag]) (by rw [hw, happy_odom])
    (by rw [hw, happy_lidar]) (by rw [hw, happy_battery]) (by rw [hw, happy_temp])
    (by rw [hw, happy_stage7]; exact validate_init)
  refine ⟨h.1, h.2.2.2.1, h.2.2.2.2.2.1, ?_, h.2.2.2.2.2.2.2⟩
  rw [h.2.2.2.2.2.2.1]
  decide

/-- C4: a LiDAR read failure on the Running tick moves the sequencer to Error
with record and persistence trace untouched; the following tick returns to
Idle with status Invalid and the request flag cleared, still without any
save; and no tick from any state other than Complete ever performs a
persistence call, so the whole failed run persists nothing. -/
theorem lidar_failure_aborts_run (e : Env) (w : World)
    (hs : w.calib_state = CalibrationState.lidarRunning)
    (hf : (calibrate_lidar e.lidar_reads w.calib).1 = false) :
    (calibration_state_machine e w).calib_state = CalibrationState.errorState ∧
    (calibration_state_machine e w).calib = w.calib ∧
    (calibration_state_machine e w).saves = w.saves ∧
    (ticks e 2 w).calib_state = CalibrationState.idle ∧
    (ticks e 2 w).calib.status = CalibrationStatus.invalid ∧
    (ticks e 2 w).calibration_requested = false ∧
    (ticks e 2 w).saves = w.saves ∧
    (∀ (e' : Env) (w' : World), w'.calib_state ≠ CalibrationState.complete →
      (calibration_state_machine e' w').saves = w'.saves) := by
  have hfail := calibrate_lidar_fail e.lidar_reads w.calib hf
  have t1 : calibration_state_machine e w =
      { w with calib_state := CalibrationState.errorState } := by
    unfold calibration_state_machine
    rw [hs]
    simp [hfail]
  have t2 : ticks e 2 w =
      { w with
        calib_state := CalibrationState.idle
        calibration_requested := false
        calib := { w.calib with status := CalibrationStatus.invalid } } := by
    rw [show ticks e 2 w = calibration_state_machine e (ticks e 1 w) from rfl,
        show ticks e 1 w = calibration_state_machine e w from rfl, t1]
    unfold calibration_state_machine
    simp
  exact ⟨by rw [t1], by rw [t1], by rw [t1], by rw [t2], by rw [t2], by rw [t2],
         by rw [t2], step_saves_of_ne_complete⟩

/-- Environment identical to the all-success mock except that every LiDAR
read returns the negative failure sentinel. -/
def lidarFailEnv : Env := { happyEnv with lidar_reads := fun _ => -1 }

/-- World sitting in the LiDAR Running state with the default record. -/
def wLidar : World := { w0 with calib_state := CalibrationState.lidarRunning }

/-- Witness for C4 at the concrete failing LiDAR environment. -/
theorem lidar_failure_aborts_run_witness :
    (calibration_state_machine lidarFailEnv wLidar).calib_state =
      CalibrationState.errorState ∧
    (ticks lidarFailEnv 2 wLidar).calib_state = CalibrationState.idle ∧
    (ticks lidarFailEnv 2 wLidar).calib.status = CalibrationStatus.invalid ∧
    (ticks lidarFailEnv 2 wLidar).saves = wLidar.saves := by
  have hcol : lidarCollect lidarFailEnv.lidar_reads LIDAR_SAMPLES 0 ⟨0, 0⟩ = none := by
    rw [show LIDAR_SAMPLES = 49 + 1 from rfl, lidarCollect]
    norm_num [lidarFailEnv, happyEnv]
  have hf : (calibrate_lidar lidarFailEnv.lidar_reads wLidar.calib).1 = false := by
    unfold calibrate_lidar
    rw [hcol]
  have h := lidar_failure_aborts_run lidarFailEnv wLidar rfl hf
  exact ⟨h.1, h.2.2.2.1, h.2.2.2.2.1, h.2.2.2.2.2.2.1⟩

lemma monitor_status_cases (last_check now : Nat) (read : Option Vec3)
    (c : SensorCalibration) :
    (monitor_sensor_drift last_check now read c).1.status = c.status ∨
    (monitor_sensor_drift last_check now read c).1.status =
      CalibrationStatus.needsRecalibration := by
  unfold monitor_sensor_drift
  split
  · exact Or.inl rfl
  · split
    · exact Or.inl rfl
    · split
      · exact Or.inr rfl
      · exact Or.inl rfl

/-- C5: a sequencer tick can only produce a record with status Valid if the
status was already Valid or the tick was the Complete transition, and the
Drift Monitor can only produce status Valid if the status was already Valid —
so neither the Error transition nor drift monitoring ever upgrades a record
to Valid without a new full run through Complete. -/
theorem status_valid_only_from_complete (e : Env) (w : World)
    (last_check now : Nat) (read : Option Vec3) (c : SensorCalibration) :
    ((calibration_state_machine e w).calib.status = CalibrationStatus.valid →
      w.calib.status = CalibrationStatus.valid ∨
      w.calib_state = CalibrationState.complete) ∧
    ((monitor_sensor_drift last_check now read c).1.status = CalibrationStatus.valid →
      c.status = CalibrationStatus.valid) := by
  constructor
  · intro h
    unfold calibration_state_machine at h
    split at h
    · split at h
      · exact Or.inl h
      · exact Or.inl h
    · exact Or.inl h
    · exact Or.inl ((calibrate_imu_status e.imu_reads w.calib).symm.trans h)
    · exact Or.inl h
    · exact Or.inl
        ((calibrate_magnetometer_status e.mag_iters e.mag_reads w.calib).symm.trans h)
    · exact Or.inl h
    · exact Or.inl ((calibrate_odometer_status e.move_ok e.pulses_left
        e.pulses_right w.calib).symm.trans h)
    · exact Or.inl h
    · exact Or.inl ((calibrate_lidar_status e.lidar_reads w.calib).symm.trans h)
    · exact Or.inl h
    · exact Or.inl ((calibrate_camera_status w.calib).symm.trans h)
    · exact Or.inl h
    · exact Or.inl ((calibrate_battery_status e.battery_reads w.calib).symm.trans h)
    · exact Or.inl h
    · exact Or.inl ((calibrate_temperature_status e.temp_reads w.calib).symm.trans h)
    · exact Or.inl h
    · rename_i heq
      exact Or.inr heq
    · have h' : CalibrationStatus.invalid = CalibrationStatus.valid := h
      exact absurd h' (by decide)
  · intro h
    rcases monitor_status_cases last_check now read c with he | he
    · rw [he] at h
      exact h
    · rw [he] at h
      exact absurd h (by decide)

/-- World sitting in the Complete state with the default record. -/
def wComplete : World := { w0 with calib_state := CalibrationState.complete }

/-- Witness for C5: the Complete tick yields status Valid, and the theorem
pins that on the Complete state (the start record was Invalid). -/
theorem status_valid_only_from_complete_witness :
    wComplete.calib.status = CalibrationStatus.valid ∨
    wComplete.calib_state = CalibrationState.complete :=
  (status_valid_only_from_complete happyEnv wComplete 0 0 none
    init_default_calibration).1 rfl

/-- C6: for 100 constant inertial samples (b1, b2, b3) with no read failure,
the IMU stage succeeds and writes bias exactly (b1, b2, b3 − 9.81) with all
three scale factors 1; in general the stage fails exactly when some of the
100 reads fails or some axis's computed variance exceeds (0.5)² — that is,
its sample standard deviation exceeds 0.5. -/
theorem imu_constant_sample_bias (r : Nat → Option Vec3) (b1 b2 b3 : ℚ)
    (c : SensorCalibration)
    (h : ∀ i, i < IMU_SAMPLES → r i = some (b1, b2, b3)) :
    calibrate_imu r c =
      (true, { c with
        imu_bias_x := b1
        imu_bias_y := b2
        imu_bias_z := b3 - 981 / 100
        imu_scale_x := 1
        imu_scale_y := 1
        imu_scale_z := 1 }) ∧
    (∀ (r' : Nat → Option Vec3) (c' : SensorCalibration),
      (calibrate_imu r' c').1 = false ↔
        imuCollect r' IMU_SAMPLES 0 imuZero = none ∨
        ∃ s, imuCollect r' IMU_SAMPLES 0 imuZero = some s ∧
          (s.sqx / (IMU_SAMPLES : ℚ) -
             s.sx / (IMU_SAMPLES : ℚ) * (s.sx / (IMU_SAMPLES : ℚ)) > 1 / 4 ∨
           s.sqy / (IMU_SAMPLES : ℚ) -
             s.sy / (IMU_SAMPLES : ℚ) * (s.sy / (IMU_SAMPLES : ℚ)) > 1 / 4 ∨
           s.sqz / (IMU_SAMPLES : ℚ) -
             s.sz / (IMU_SAMPLES : ℚ) * (s.sz / (IMU_SAMPLES : ℚ)) > 1 / 4)) ∧
    (∀ r' : Nat → Option Vec3,
      imuCollect r' IMU_SAMPLES 0 imuZero = none ↔
        ∃ i, i < IMU_SAMPLES ∧ r' i = none) := by
  refine ⟨?_, ?_, ?_⟩
  · have hcol := imuCollect_const r b1 b2 b3 IMU_SAMPLES 0 imuZero
      (fun j hj => by simpa using h j hj)
    have hcol' : imuCollect r IMU_SAMPLES 0 imuZero =
        some ⟨100 * b1, 100 * b2, 100 * b3,
              100 * (b1 * b1), 100 * (b2 * b2), 100 * (b3 * b3)⟩ := by
      rw [hcol]
      norm_num [imuZero, IMU_SAMPLES]
    unfold calibrate_imu
    rw [hcol']
    dsimp only
    have hvar : ∀ q : ℚ, 100 * (q * q) / (IMU_SAMPLES : ℚ) -
        100 * q / (IMU_SAMPLES : ℚ) * (100 * q / (IMU_SAMPLES : ℚ)) = 0 := fun q => by
      simp only [IMU_SAMPLES, Nat.cast_ofNat]
      ring
    rw [if_neg (by rw [hvar, hvar, hvar]; norm_num)]
    have e1 : ∀ q : ℚ, 100 * q / (IMU_SAMPLES : ℚ) = q := fun q => by
      simp only [IMU_SAMPLES, Nat.cast_ofNat]
      ring
    rw [e1, e1, e1]
  · intro r' c'
    unfold calibrate_imu
    cases hcol : imuCollect r' IMU_SAMPLES 0 imuZero with
    | none => simp [hcol]
    | some s =>
      dsimp only
      split
      · rename_i hgt
        simp only [hcol]
        constructor
        · intro _
          exact Or.inr ⟨s, rfl, hgt⟩
        · intro _
          trivial
      · rename_i hng
        simp only [hcol]
        constructor
        · intro habs
          exact absurd habs (by simp)
        · rintro (hno | ⟨s', hs', hp⟩)
          · exact Option.noConfusion hno
          · injection hs' with hss
            subst hss
            exact absurd hp hng
  · intro r'
    simpa using imuCollect_none_iff r' IMU_SAMPLES 0 imuZero

/-- Witness for C6: constant samples (1, 2, 3) on the default record. -/
theorem imu_constant_sample_bias_witness :
    calibrate_imu (fun _ => some (1, 2, 3)) init_default_calibration =
      (true, { init_default_calibration with
        imu_bias_x := 1
        imu_bias_y := 2
        imu_bias_z := 3 - 981 / 100
        imu_scale_x := 1
        imu_scale_y := 1
        imu_scale_z := 1 }) :=
  (imu_constant_sample_bias (fun _ => some (1, 2, 3)) 1 2 3
    init_default_calibration (fun _ _ => rfl)).1

/-- C7 counterexample: a sweep consisting of a single constant reading
(0, 0, 0) has all three half-ranges equal (all zero), yet the derived x-axis
scale factor is 0 — the zero-half-range division artifact — and not 1. -/
theorem mag_constant_sweep_scale_not_one :
    magCollect (fun _ => some (0, 0, 0)) 1 0 magInitBounds =
      some ⟨0, 0, 0, 0, 0, 0⟩ ∧
    (calibrate_magnetometer 1 (fun _ => some (0, 0, 0))
      init_default_calibration).1 = true ∧
    (calibrate_magnetometer 1 (fun _ => some (0, 0, 0))
      init_default_calibration).2.mag_scale_x = 0 := by
  have hcol : magCollect (fun _ => some (0, 0, 0)) 1 0 magInitBounds =
      some ⟨0, 0, 0, 0, 0, 0⟩ := by
    rw [show (1 : Nat) = 0 + 1 from rfl]
    simp only [magCollect]
    norm_num [magInitBounds]
  refine ⟨hcol, ?_, ?_⟩
  · unfold calibrate_magnetometer
    rw [hcol]
  · unfold calibrate_magnetometer
    rw [hcol]
    norm_num

/-- C7 (amended): every completed magnetometer sweep writes the per-axis
midpoint offsets (max+min)/2 and per-axis scales equal to the average of the
three half-ranges divided by that axis's half-range; consequently, when the
three half-ranges are equal and nonzero, all three scale factors equal 1 —
the all-zero (constant-sweep) case instead yields the division artifact. -/
theorem mag_sweep_offset_scale (n : Nat) (r : Nat → Option Vec3)
    (c : SensorCalibration) (b : MagBounds)
    (h : magCollect r n 0 magInitBounds = some b) :
    calibrate_magnetometer n r c =
      (true, { c with
        mag_offset_x := (b.xmax + b.xmin) / 2
        mag_offset_y := (b.ymax + b.ymin) / 2
        mag_offset_z := (b.zmax + b.zmin) / 2
        mag_scale_x := ((b.xmax - b.xmin) / 2 + (b.ymax - b.ymin) / 2 +
          (b.zmax - b.zmin) / 2) / 3 / ((b.xmax - b.xmin) / 2)
        mag_scale_y := ((b.xmax - b.xmin) / 2 + (b.ymax - b.ymin) / 2 +
          (b.zmax - b.zmin) / 2) / 3 / ((b.ymax - b.ymin) / 2)
        mag_scale_z := ((b.xmax - b.xmin) / 2 + (b.ymax - b.ymin) / 2 +
          (b.zmax - b.zmin) / 2) / 3 / ((b.zmax - b.zmin) / 2) }) ∧
    ((b.ymax - b.ymin) / 2 = (b.xmax - b.xmin) / 2 →
     (b.zmax - b.zmin) / 2 = (b.xmax - b.xmin) / 2 →
     (b.xmax - b.xmin) / 2 ≠ 0 →
       (calibrate_magnetometer n r c).2.mag_scale_x = 1 ∧
       (calibrate_magnetometer n r c).2.mag_scale_y = 1 ∧
       (calibrate_magnetometer n r c).2.mag_scale_z = 1) := by
  have heq : calibrate_magnetometer n r c =
      (true, { c with
        mag_offset_x := (b.xmax + b.xmin) / 2
        mag_offset_y := (b.ymax + b.ymin) / 2
        mag_offset_z := (b.zmax + b.zmin) / 2
        mag_scale_x := ((b.xmax - b.xmin) / 2 + (b.ymax - b.ymin) / 2 +
          (b.zmax - b.zmin) / 2) / 3 / ((b.xmax - b.xmin) / 2)
        mag_scale_y := ((b.xmax - b.xmin) / 2 + (b.ymax - b.ymin) / 2 +
          (b.zmax - b.zmin) / 2) / 3 / ((b.ymax - b.ymin) / 2)
        mag_scale_z := ((b.xmax - b.xmin) / 2 + (b.ymax - b.ymin) / 2 +
          (b.zmax - b.zmin) / 2) / 3 / ((b.zmax - b.zmin) / 2) }) := by
    unfold calibrate_magnetometer
    rw [h]
  refine ⟨heq, fun hy hz hx0 => ?_⟩
  rw [heq]
  dsimp only
  rw [hy, hz]
  have hsum : ((b.xmax - b.xmin) / 2 + (b.xmax - b.xmin) / 2 +
      (b.xmax - b.xmin) / 2) / 3 = (b.xmax - b.xmin) / 2 := by ring
  rw [hsum, div_self hx0]
  exact ⟨rfl, rfl, rfl⟩

/-- Witness for the amended C7 theorem: the symmetric two-sample sweep with
unit half-ranges on every axis. -/
theorem mag_sweep_offset_scale_witness :
    (calibrate_magnetometer 2 happyEnv.mag_reads
      init_default_calibration).2.mag_scale_x = 1 ∧
    (calibrate_magnetometer 2 happyEnv.mag_reads
      init_default_calibration).2.mag_scale_y = 1 ∧
    (calibrate_magnetometer 2 happyEnv.mag_reads
      init_default_calibration).2.mag_scale_z = 1 :=
  (mag_sweep_offset_scale 2 happyEnv.mag_reads init_default_calibration
    ⟨-1, 1, -1, 1, -1, 1⟩ happy_magCollect).2 (by norm_num) (by norm_num)
    (by norm_num)
